import Mathlib

/-!
Shallow embedding of the `rapando/mfl_api` sources:
  * `src/data_bootstrap/management/commands/bootstrap.py` (the bootstrap command),
  * `src/chul/models.py` (community health unit data model and validation).
Definitions follow the Python source; parts of the repository that are not in
`src/` (the `common` app, `data_bootstrap/bootstrap.py`) are modelled from the
specification and are marked as such in their doc comments.
-/

namespace MflApi

/-! ## Bootstrap command — src/data_bootstrap/management/commands/bootstrap.py -/

/-- Embedding of Python's `os.path.join(base, rel)` for the relative paths used
by the bootstrap command. -/
def pathJoin (base rel : String) : String := base ++ "/" ++ rel

/-- The file-system environment the command consults: `os.path.exists(p) and
os.path.isfile(p)` is `isFile p`; `glob.glob(p)` is `glob p`. -/
structure FileSystem where
  isFile : String → Bool
  glob : String → List String

/-- The failures the specification attributes to `process_json_file`:
malformed JSON and database constraint violations. -/
inductive BootstrapError where
  | malformedJson (file : String)
  | dbConstraint (file : String)
deriving DecidableEq, Repr

/-- Modelled from the spec: `process_json_file` lives in
`data_bootstrap/bootstrap.py`, which is not under `src/`.  Per the spec it
parses one JSON fixture file and idempotently upserts its reference data, and
its failures (malformed JSON, DB constraint violations) propagate as
exceptions.  We model it as an abstract fallible action on a file name. -/
abbrev ProcessJsonFile := String → Except BootstrapError Unit

/-- The fixed list of file paths built by `Command.handle` (bootstrap.py
lines 14-27).  The Python code assigns `owners` the `facility_owners.json`
path and then immediately rebinds `owners` to the `service_categories.json`
path; the embedding reproduces that shadowing faithfully. -/
def bootstrapPaths (base : String) : List String :=
  let counties := pathJoin base "data/data/counties.json"
  let constituencies := pathJoin base "data/data/constituencies.json"
  let owners := pathJoin base "data/data/facility_owners.json"
  let owners := pathJoin base "data/data/service_categories.json"
  let job_titles := pathJoin base "data/data/job_titles.json"
  [counties, constituencies, owners, job_titles]

/-- One iteration of the loop in `Command.handle`: a suggestion that is an
existing plain file is processed itself; otherwise every glob match is
processed. -/
def filesFor (fs : FileSystem) (suggestion : String) : List String :=
  if fs.isFile suggestion then [suggestion] else fs.glob suggestion

/-- All files the command hands to `process_json_file`, in order. -/
def resolvedFiles (fs : FileSystem) (base : String) : List String :=
  (bootstrapPaths base).flatMap (filesFor fs)

/-- Run `process_json_file` on each file in turn.  Returns the files on which
it was actually called and, when a call raised, the propagated exception
(processing stops at the first failure, as in Python). -/
def processAll (proc : ProcessJsonFile) : List String → List String × Option BootstrapError
  | [] => ([], none)
  | f :: rest =>
    match proc f with
    | .error e => ([f], some e)
    | .ok _ =>
      let done := processAll proc rest
      (f :: done.1, done.2)

/-- Observable outcome of running the command: which files were processed,
whether an exception propagated, and the lines written to standard output. -/
structure HandleResult where
  processed : List String
  err : Option BootstrapError
  stdout : List String
deriving DecidableEq, Repr

/-- `Command.handle` (bootstrap.py lines 13-38): resolve the fixed paths,
process every resolved file, and — only when no call raised — write
"Done loading" to standard output. -/
def Command.handle (fs : FileSystem) (proc : ProcessJsonFile) (base : String) :
    HandleResult :=
  match processAll proc (resolvedFiles fs base) with
  | (done, some e) => ⟨done, some e, []⟩
  | (done, none) => ⟨done, none, ["Done loading"]⟩

/-! ## Community health unit data model — src/chul/models.py -/

/-- The slice of `facilities.models.Facility` the chul models consult: only
its `closed` flag is read (models.py line 79). -/
structure Facility where
  closed : Bool
deriving DecidableEq, Repr

/-- A Django `ValidationError({field: messages})`: a field-scoped error
attached to one attribute. -/
structure VErr where
  field : String
  messages : List String
deriving DecidableEq, Repr

/-- `CommunityHealthUnit` (models.py lines 47-141).  The `code` field is the
`SequenceField`; Python tests it with `if not self.code`, so the unset value
(`None`/`0`, both falsy) is encoded as `0`.  Dates are abstract numbers. -/
structure CommunityHealthUnit where
  id : Nat
  name : String
  code : Nat
  facility : Facility
  status : String
  households_monitored : Nat
  date_established : Nat
  date_operational : Option Nat
  is_approved : Bool
  approval_comment : Option String
  approval_date : Option Nat
  location : Option String
  is_closed : Bool
  closing_comment : Option String
  is_rejected : Bool
  rejection_reason : Option String
deriving DecidableEq, Repr

/-- `CommunityHealthUnit.validate_facility_is_not_closed` (lines 78-88). -/
def CommunityHealthUnit.validate_facility_is_not_closed
    (u : CommunityHealthUnit) : Except VErr Unit :=
  if u.facility.closed then
    .error ⟨"facility",
      ["A Community Unit cannot be attached to a closed facility"]⟩
  else .ok ()

/-- `CommunityHealthUnit.validate_either_approved_or_rejected_and_not_both`
(lines 90-98). -/
def CommunityHealthUnit.validate_either_approved_or_rejected_and_not_both
    (u : CommunityHealthUnit) : Except VErr Unit :=
  let error : VErr :=
    ⟨"approve/reject",
      ["A Community Unit cannot be approved and rejected at the same time "]⟩
  let values := [u.is_approved, u.is_rejected]
  if values.count true > 1 then .error error else .ok ()

/-- Modelled from the spec: `AbstractBase.clean` (app `common`, not under
`src/`).  The spec assigns the base no validation beyond the two checks named
in 4.1, so the inherited hook succeeds. -/
def AbstractBase.clean : Except VErr Unit := .ok ()

/-- `CommunityHealthUnit.clean` (lines 116-119): the inherited hook, then the
two validators, each short-circuiting on failure. -/
def CommunityHealthUnit.clean (u : CommunityHealthUnit) : Except VErr Unit := do
  AbstractBase.clean
  u.validate_facility_is_not_closed
  u.validate_either_approved_or_rejected_and_not_both

/-- `CHURating` (models.py lines 200-216): `rating` is a
`PositiveIntegerField` (a natural number); `chu` is the foreign key to the
rated health unit. -/
structure CHURating where
  id : Nat
  chu : Nat
  rating : Nat
  comment : Option String
deriving DecidableEq, Repr

/-- The persisted state the chul claims range over: the health-unit table,
the rating table, and the shared sequence counter behind `SequenceField`. -/
structure ChuDatabase where
  units : List CommunityHealthUnit
  ratings : List CHURating
  seq : Nat
deriving DecidableEq, Repr

/-- Modelled from the spec: `SequenceMixin.generate_next_code_sequence` (app
`common`, not under `src/`) returns "the next value from a shared monotonic
sequence scoped to this entity type" and advances that sequence's counter. -/
def generate_next_code_sequence (db : ChuDatabase) : Nat × ChuDatabase :=
  (db.seq + 1, { db with seq := db.seq + 1 })

/-- The upsert of a row keyed by its id. -/
def persistUnit (u : CommunityHealthUnit) (units : List CommunityHealthUnit) :
    List CommunityHealthUnit :=
  if units.any (fun v => v.id == u.id) then
    units.map (fun v => if v.id == u.id then u else v)
  else units ++ [u]

/-- Modelled from the spec: `AbstractBase.save` (app `common`, not under
`src/`) — entities are "mutated only through validated save operations" and
validation runs "before any persist", so the inherited save runs `clean` and
persists the row only when validation passes; a validation error propagates
and nothing is persisted. -/
def AbstractBase.save (u : CommunityHealthUnit) (db : ChuDatabase) :
    Except VErr (CommunityHealthUnit × ChuDatabase) :=
  match u.clean with
  | .error e => .error e
  | .ok _ => .ok (u, { db with units := persistUnit u db.units })

/-- `CommunityHealthUnit.save` (lines 121-124): when `code` is falsy, assign
it the next value of the shared sequence (`self.code =
self.generate_next_code_sequence()`), then call the inherited save. -/
def CommunityHealthUnit.save (u : CommunityHealthUnit) (db : ChuDatabase) :
    Except VErr (CommunityHealthUnit × ChuDatabase) :=
  if u.code = 0 then
    AbstractBase.save { u with code := (generate_next_code_sequence db).1 }
      (generate_next_code_sequence db).2
  else AbstractBase.save u db

/-- The rating values linked to a unit: `self.chu_ratings`, the reverse of
`CHURating.chu` (models.py line 206). -/
def ratingsOf (u : CommunityHealthUnit) (db : ChuDatabase) : List Nat :=
  (db.ratings.filter (fun r => r.chu == u.id)).map (fun r => r.rating)

/-- Django's `Avg` aggregate: `None` on an empty set, else the exact
arithmetic mean. -/
def aggregateAvg (rs : List Nat) : Option ℚ :=
  if rs.isEmpty then none
  else some ((rs.map (fun n => (n : ℚ))).sum / rs.length)

/-- Python's `x or 0`: `0` when `x` is falsy (`None` or zero), else `x`. -/
def pyOrZero : Option ℚ → ℚ
  | none => 0
  | some q => if q = 0 then 0 else q

/-- `CommunityHealthUnit.average_rating` (lines 126-128):
`self.chu_ratings.aggregate(r=models.Avg('rating'))['r'] or 0`. -/
def CommunityHealthUnit.average_rating (u : CommunityHealthUnit)
    (db : ChuDatabase) : ℚ :=
  pyOrZero (aggregateAvg (ratingsOf u db))

/-- `CHURating`'s field validators (lines 207-212): `MaxValueValidator(5)`
then `MinValueValidator(0)`, each raising a field-scoped error on `rating`. -/
def CHURating.run_validators (r : CHURating) : Except VErr Unit :=
  if 5 < r.rating then
    .error ⟨"rating", ["Ensure this value is less than or equal to 5."]⟩
  else if r.rating < 0 then
    .error ⟨"rating", ["Ensure this value is greater than or equal to 0."]⟩
  else .ok ()

/-- `ChuUpdateBuffer` (models.py lines 219-247): a pending-change record
holding opaque serialized payloads. -/
structure ChuUpdateBuffer where
  id : Nat
  health_unit : Nat
  workers : Option String
  contacts : Option String
  basic : Option String
deriving DecidableEq, Repr

/-- The observable outcome of calling a `ChuUpdateBuffer` method: the Python
return value (`none` is Python's `None`), the possibly-mutated receiver, and
the possibly-mutated buffer table — wrapped in `Except` since a method could
raise. -/
abbrev BufferOutcome :=
  Except VErr (Option Unit × ChuUpdateBuffer × List ChuUpdateBuffer)

/-- `ChuUpdateBuffer.validate_atleast_one_attribute_updated` (228-229): the
body is `pass`. -/
def ChuUpdateBuffer.validate_atleast_one_attribute_updated
    (b : ChuUpdateBuffer) (table : List ChuUpdateBuffer) : BufferOutcome :=
  .ok (none, b, table)

/-- `ChuUpdateBuffer.update_basic_details` (231-232): the body is `pass`. -/
def ChuUpdateBuffer.update_basic_details
    (b : ChuUpdateBuffer) (table : List ChuUpdateBuffer) : BufferOutcome :=
  .ok (none, b, table)

/-- `ChuUpdateBuffer.update_workers` (234-235): the body is `pass`. -/
def ChuUpdateBuffer.update_workers
    (b : ChuUpdateBuffer) (table : List ChuUpdateBuffer) : BufferOutcome :=
  .ok (none, b, table)

/-- `ChuUpdateBuffer.update_contacts` (237-238): the body is `pass`. -/
def ChuUpdateBuffer.update_contacts
    (b : ChuUpdateBuffer) (table : List ChuUpdateBuffer) : BufferOutcome :=
  .ok (none, b, table)

/-- `ChuUpdateBuffer.updates` (240-241): the body is `pass`. -/
def ChuUpdateBuffer.updates
    (b : ChuUpdateBuffer) (table : List ChuUpdateBuffer) : BufferOutcome :=
  .ok (none, b, table)

/-- `ChuUpdateBuffer.save` (243-244): overrides the inherited save with
`pass` and never calls `super().save`, so nothing is persisted. -/
def ChuUpdateBuffer.save
    (b : ChuUpdateBuffer) (table : List ChuUpdateBuffer) : BufferOutcome :=
  .ok (none, b, table)

/-- `ChuUpdateBuffer.clean` (246-247): overrides validation with `pass`. -/
def ChuUpdateBuffer.clean
    (b : ChuUpdateBuffer) (table : List ChuUpdateBuffer) : BufferOutcome :=
  .ok (none, b, table)

/-- `CommunityHealthWorker` (models.py lines 162-187): `id_number` is a
nullable `PositiveIntegerField(unique=True)`, and the model also declares
`unique_together = ('id_number', 'health_unit')`. -/
structure CommunityHealthWorker where
  id : Nat
  first_name : String
  last_name : Option String
  id_number : Option Nat
  is_incharge : Bool
  health_unit : Nat
deriving DecidableEq, Repr

/-- The database check behind `id_number`'s field-level `unique=True`: an
existing row conflicts when both id_numbers are non-null and equal (SQL
`NULL` never equals `NULL`). -/
def idNumberConflict (v w : CommunityHealthWorker) : Bool :=
  v.id_number.isSome && v.id_number == w.id_number

/-- The database check behind `unique_together = ('id_number',
'health_unit')`. -/
def uniqueTogetherConflict (v w : CommunityHealthWorker) : Bool :=
  idNumberConflict v w && v.health_unit == w.health_unit

/-- Inserting a worker row under the two declared uniqueness constraints:
the insert is rejected when an existing row conflicts. -/
def insertWorker (table : List CommunityHealthWorker)
    (w : CommunityHealthWorker) :
    Except String (List CommunityHealthWorker) :=
  if table.any (fun v => idNumberConflict v w) then
    .error "duplicate key value violates unique constraint on id_number"
  else if table.any (fun v => uniqueTogetherConflict v w) then
    .error "columns id_number, health_unit are not unique"
  else .ok (table ++ [w])

/-- No two distinct rows of the worker table share a non-null id_number. -/
def NoSharedIdNumber (table : List CommunityHealthWorker) : Prop :=
  table.Pairwise (fun a b => ∀ n, a.id_number = some n → b.id_number ≠ some n)

/-! ## Helper lemmas -/

theorem processAll_ok (proc : ProcessJsonFile) (l : List String)
    (hok : ∀ f ∈ l, proc f = .ok ()) : processAll proc l = (l, none) := by
  induction l with
  | nil => rfl
  | cons f rest ih =>
    have hf := hok f (List.mem_cons_self f rest)
    simp only [processAll, hf]
    rw [ih (fun g hg => hok g (List.mem_cons_of_mem f hg))]

theorem processAll_error (proc : ProcessJsonFile) (pre post : List String)
    (f : String) (e : BootstrapError)
    (hpre : ∀ g ∈ pre, proc g = .ok ()) (hf : proc f = .error e) :
    processAll proc (pre ++ f :: post) = (pre ++ [f], some e) := by
  induction pre with
  | nil => simp [processAll, hf]
  | cons g rest ih =>
    have hg := hpre g (List.mem_cons_self g rest)
    have ih' := ih (fun x hx => hpre x (List.mem_cons_of_mem g hx))
    simp only [List.cons_append, processAll, hg, List.append_eq, ih']

/-! ## Claims about the bootstrap command -/

/-- A file system on which every configured path is an existing plain file
(in particular `data/data/facility_owners.json` exists). -/
def allFilesFS : FileSystem := ⟨fun _ => true, fun _ => []⟩

/-- A `process_json_file` that always succeeds. -/
def okProc : ProcessJsonFile := fun _ => .ok ()

/-- Claim C1 (counterevidence, code bug): run the bootstrap command on a file
system where every configured file — including `facility_owners.json` —
exists and loading always succeeds.  The files processed are counties,
constituencies, **service categories** and job titles; the facility-owners
file is never handed to `process_json_file`, because `bootstrap.py` rebinds
the `owners` variable to the service-categories path before using it.  This
contradicts the claim that all four reference categories (counties,
constituencies, facility owners, job titles) are loaded when their files
exist. -/
theorem claim_C1_facility_owners_never_processed :
    (Command.handle allFilesFS okProc "BASE").processed =
      [pathJoin "BASE" "data/data/counties.json",
       pathJoin "BASE" "data/data/constituencies.json",
       pathJoin "BASE" "data/data/service_categories.json",
       pathJoin "BASE" "data/data/job_titles.json"] ∧
    pathJoin "BASE" "data/data/facility_owners.json" ∉
      (Command.handle allFilesFS okProc "BASE").processed := by
  constructor
  · rfl
  · decide

/-- Claim C8: when a configured bootstrap path is not an existing file and
its glob matches zero files, the path contributes no work, and — provided
`process_json_file` succeeds on the files that do resolve — the command
completes without error, processes exactly the resolved files, and writes
"Done loading" to standard output. -/
theorem claim_C8_empty_glob_tolerated (fs : FileSystem) (proc : ProcessJsonFile)
    (base p : String) (hp : p ∈ bootstrapPaths base)
    (hfile : fs.isFile p = false) (hglob : fs.glob p = [])
    (hok : ∀ f, proc f = .ok ()) :
    filesFor fs p = [] ∧
    Command.handle fs proc base =
      ⟨resolvedFiles fs base, none, ["Done loading"]⟩ := by
  refine ⟨by simp [filesFor, hfile, hglob], ?_⟩
  unfold Command.handle
  rw [processAll_ok proc _ (fun f _ => hok f)]

/-- A file system on which only the counties file exists and no glob matches
anything. -/
def countiesOnlyFS : FileSystem :=
  ⟨fun s => s == pathJoin "B" "data/data/counties.json", fun _ => []⟩

/-- Witness for claim C8 at a concrete input: only the counties file exists;
the constituencies path matches nothing, yet the run succeeds, processes the
counties file, and prints "Done loading". -/
theorem claim_C8_witness :
    filesFor countiesOnlyFS (pathJoin "B" "data/data/constituencies.json") = [] ∧
    Command.handle countiesOnlyFS okProc "B" =
      ⟨resolvedFiles countiesOnlyFS "B", none, ["Done loading"]⟩ :=
  claim_C8_empty_glob_tolerated countiesOnlyFS okProc "B"
    (pathJoin "B" "data/data/constituencies.json")
    (by decide) (by decide) rfl (fun _ => rfl)

/-- Claim C9: if `process_json_file` raises on some resolved file (every file
before it loading fine), the exception propagates out of the command: the
files after the failing one are never processed, and "Done loading" is not
written. -/
theorem claim_C9_failure_aborts_batch (fs : FileSystem) (proc : ProcessJsonFile)
    (base : String) (pre post : List String) (f : String) (e : BootstrapError)
    (hsplit : resolvedFiles fs base = pre ++ f :: post)
    (hpre : ∀ g ∈ pre, proc g = .ok ()) (hf : proc f = .error e) :
    Command.handle fs proc base = ⟨pre ++ [f], some e, []⟩ := by
  unfold Command.handle
  rw [hsplit, processAll_error proc pre post f e hpre hf]

/-- A `process_json_file` that raises a malformed-JSON error on the
constituencies file and succeeds elsewhere. -/
def failOnConstituencies : ProcessJsonFile := fun s =>
  if s == pathJoin "B" "data/data/constituencies.json" then
    .error (.malformedJson s)
  else .ok ()

/-- Witness for claim C9 at a concrete input: with every configured file
present and the constituencies file malformed, the command processes the
counties then the constituencies file, aborts there (service categories and
job titles untouched), and prints nothing. -/
theorem claim_C9_witness :
    Command.handle allFilesFS failOnConstituencies "B" =
      ⟨[pathJoin "B" "data/data/counties.json",
        pathJoin "B" "data/data/constituencies.json"],
       some (.malformedJson (pathJoin "B" "data/data/constituencies.json")), []⟩ :=
  claim_C9_failure_aborts_batch allFilesFS failOnConstituencies "B"
    [pathJoin "B" "data/data/counties.json"]
    [pathJoin "B" "data/data/service_categories.json",
     pathJoin "B" "data/data/job_titles.json"]
    (pathJoin "B" "data/data/constituencies.json")
    (.malformedJson (pathJoin "B" "data/data/constituencies.json"))
    rfl
    (by intro g hg; rw [List.mem_singleton] at hg; subst hg; rfl)
    rfl

/-! ## Helper lemmas about the health-unit validators and save -/

theorem validate_either_both (u : CommunityHealthUnit)
    (h1 : u.is_approved = true) (h2 : u.is_rejected = true) :
    u.validate_either_approved_or_rejected_and_not_both =
      .error ⟨"approve/reject",
        ["A Community Unit cannot be approved and rejected at the same time "]⟩ := by
  simp [CommunityHealthUnit.validate_either_approved_or_rejected_and_not_both,
    h1, h2, List.count_cons]

theorem not_both_of_validate_either_ok (u : CommunityHealthUnit)
    (h : u.validate_either_approved_or_rejected_and_not_both = .ok ()) :
    ¬(u.is_approved = true ∧ u.is_rejected = true) := by
  rintro ⟨h1, h2⟩
  rw [validate_either_both u h1 h2] at h
  exact absurd h (by simp)

theorem clean_of_facility_closed (u : CommunityHealthUnit)
    (h : u.facility.closed = true) :
    u.clean = .error ⟨"facility",
      ["A Community Unit cannot be attached to a closed facility"]⟩ := by
  simp [CommunityHealthUnit.clean, AbstractBase.clean,
    CommunityHealthUnit.validate_facility_is_not_closed, h, Bind.bind,
    Except.bind]

theorem clean_of_facility_open (u : CommunityHealthUnit)
    (h : u.facility.closed = false) :
    u.clean = u.validate_either_approved_or_rejected_and_not_both := by
  simp [CommunityHealthUnit.clean, AbstractBase.clean,
    CommunityHealthUnit.validate_facility_is_not_closed, h, Bind.bind,
    Except.bind]

theorem clean_ok_iff (u : CommunityHealthUnit) :
    u.clean = .ok () ↔
      u.validate_facility_is_not_closed = .ok () ∧
      u.validate_either_approved_or_rejected_and_not_both = .ok () := by
  cases hf : u.facility.closed with
  | true =>
    rw [clean_of_facility_closed u hf]
    simp [CommunityHealthUnit.validate_facility_is_not_closed, hf]
  | false =>
    rw [clean_of_facility_open u hf]
    simp [CommunityHealthUnit.validate_facility_is_not_closed, hf]

theorem AbstractBase.save_of_clean_error (u : CommunityHealthUnit)
    (db : ChuDatabase) (e : VErr) (h : u.clean = .error e) :
    AbstractBase.save u db = .error e := by
  simp [AbstractBase.save, h]

theorem AbstractBase.save_ok_elim (u : CommunityHealthUnit) (db : ChuDatabase)
    (u' : CommunityHealthUnit) (db' : ChuDatabase)
    (h : AbstractBase.save u db = .ok (u', db')) :
    u' = u ∧ u.clean = .ok () ∧
      db' = { db with units := persistUnit u db.units } := by
  unfold AbstractBase.save at h
  split at h
  next e heq => simp at h
  next v heq =>
    cases v
    simp only [Except.ok.injEq, Prod.mk.injEq] at h
    exact ⟨h.1.symm, heq, h.2.symm⟩

/-! ## Claims about the health-unit model -/

/-- Claim C2: saving a community health unit whose linked facility is closed
always fails validation with the error field-scoped to the `facility`
attribute, so nothing is persisted (the save returns the error and no updated
database). -/
theorem claim_C2_closed_facility_blocks_save (u : CommunityHealthUnit)
    (db : ChuDatabase) (h : u.facility.closed = true) :
    u.save db = .error ⟨"facility",
      ["A Community Unit cannot be attached to a closed facility"]⟩ := by
  unfold CommunityHealthUnit.save
  by_cases hc : u.code = 0
  · rw [if_pos hc]
    exact AbstractBase.save_of_clean_error _ _ _ (clean_of_facility_closed _ h)
  · rw [if_neg hc]
    exact AbstractBase.save_of_clean_error _ _ _ (clean_of_facility_closed _ h)

/-- A facility with `closed = true`. -/
def closedFacility : Facility := ⟨true⟩

/-- An open facility. -/
def sampleFacility : Facility := ⟨false⟩

/-- A fresh, validly-flagged health unit attached to an open facility, with
no code assigned yet. -/
def sampleUnit : CommunityHealthUnit :=
  { id := 1, name := "Kibera CU", code := 0, facility := sampleFacility,
    status := "fully-functional", households_monitored := 0,
    date_established := 0, date_operational := none, is_approved := false,
    approval_comment := none, approval_date := none, location := none,
    is_closed := false, closing_comment := none, is_rejected := false,
    rejection_reason := none }

/-- An empty database whose shared sequence counter stands at 7. -/
def sampleDb : ChuDatabase := { units := [], ratings := [], seq := 7 }

/-- Witness for claim C2 at a concrete input: a unit attached to a closed
facility; its save returns the facility-scoped validation error. -/
theorem claim_C2_witness :
    CommunityHealthUnit.save { sampleUnit with facility := closedFacility }
        sampleDb =
      .error ⟨"facility",
        ["A Community Unit cannot be attached to a closed facility"]⟩ :=
  claim_C2_closed_facility_blocks_save
    { sampleUnit with facility := closedFacility } sampleDb rfl

/-- Claim C3: a successful save assigns `code` the next value of the shared
sequence exactly when no code was set, leaves an already-assigned code
untouched, and always leaves the unit with a set (nonzero) code — so no
subsequent save ever changes it. -/
theorem claim_C3_code_assigned_once (u : CommunityHealthUnit)
    (db : ChuDatabase) (u' : CommunityHealthUnit) (db' : ChuDatabase)
    (h : u.save db = .ok (u', db')) :
    (u.code = 0 → u'.code = (generate_next_code_sequence db).1) ∧
    (u.code ≠ 0 → u'.code = u.code) ∧
    u'.code ≠ 0 := by
  unfold CommunityHealthUnit.save at h
  by_cases hc : u.code = 0
  · rw [if_pos hc] at h
    obtain ⟨h1, -, -⟩ := AbstractBase.save_ok_elim _ _ _ _ h
    subst h1
    exact ⟨fun _ => rfl, fun hne => absurd hc hne,
      Nat.succ_ne_zero db.seq⟩
  · rw [if_neg hc] at h
    obtain ⟨h1, -, -⟩ := AbstractBase.save_ok_elim _ _ _ _ h
    subst h1
    exact ⟨fun hx => absurd hx hc, fun _ => rfl, hc⟩

/-- Witness for claim C3 at a concrete input: saving a fresh unit into a
database whose sequence counter is 7 assigns code 8 and never leaves the code
unset. -/
theorem claim_C3_witness :
    (sampleUnit.code = 0 →
      ({ sampleUnit with code := 8 } : CommunityHealthUnit).code =
        (generate_next_code_sequence sampleDb).1) ∧
    (sampleUnit.code ≠ 0 →
      ({ sampleUnit with code := 8 } : CommunityHealthUnit).code =
        sampleUnit.code) ∧
    ({ sampleUnit with code := 8 } : CommunityHealthUnit).code ≠ 0 :=
  claim_C3_code_assigned_once sampleUnit sampleDb
    { sampleUnit with code := 8 }
    { units := [{ sampleUnit with code := 8 }], ratings := [], seq := 8 }
    rfl

/-- Claim C4: whenever both the approval and the rejection flag are set, the
validator raises the error field-scoped to `approve/reject` and `clean`
fails; and after any successful validated save the stored unit never has both
flags set. -/
theorem claim_C4_approve_reject_exclusive (u : CommunityHealthUnit)
    (db : ChuDatabase) :
    (u.is_approved = true → u.is_rejected = true →
      u.validate_either_approved_or_rejected_and_not_both =
        .error ⟨"approve/reject",
          ["A Community Unit cannot be approved and rejected at the same time "]⟩ ∧
      ∃ e, u.clean = .error e) ∧
    (∀ u' db', u.save db = .ok (u', db') →
      ¬(u'.is_approved = true ∧ u'.is_rejected = true)) := by
  constructor
  · intro h1 h2
    refine ⟨validate_either_both u h1 h2, ?_⟩
    cases hf : u.facility.closed with
    | true => exact ⟨_, clean_of_facility_closed u hf⟩
    | false =>
      refine ⟨⟨"approve/reject",
        ["A Community Unit cannot be approved and rejected at the same time "]⟩, ?_⟩
      rw [clean_of_facility_open u hf]
      exact validate_either_both u h1 h2
  · intro u' db' hsave
    unfold CommunityHealthUnit.save at hsave
    by_cases hc : u.code = 0
    · rw [if_pos hc] at hsave
      obtain ⟨h1, hcl, -⟩ := AbstractBase.save_ok_elim _ _ _ _ hsave
      subst h1
      exact not_both_of_validate_either_ok _ ((clean_ok_iff _).mp hcl).2
    · rw [if_neg hc] at hsave
      obtain ⟨h1, hcl, -⟩ := AbstractBase.save_ok_elim _ _ _ _ hsave
      subst h1
      exact not_both_of_validate_either_ok _ ((clean_ok_iff _).mp hcl).2

/-- Witness for claim C4 at a concrete input: a unit with both flags set
fails the validator with the `approve/reject` error, and no successfully
saved unit carries both flags. -/
theorem claim_C4_witness :
    (CommunityHealthUnit.validate_either_approved_or_rejected_and_not_both
        { sampleUnit with is_approved := true, is_rejected := true } =
      .error ⟨"approve/reject",
        ["A Community Unit cannot be approved and rejected at the same time "]⟩ ∧
      ∃ e, CommunityHealthUnit.clean
        { sampleUnit with is_approved := true, is_rejected := true } =
          .error e) ∧
    (∀ u' db',
      CommunityHealthUnit.save
        { sampleUnit with is_approved := true, is_rejected := true }
          sampleDb = .ok (u', db') →
      ¬(u'.is_approved = true ∧ u'.is_rejected = true)) :=
  ⟨(claim_C4_approve_reject_exclusive
      { sampleUnit with is_approved := true, is_rejected := true }
      sampleDb).1 rfl rfl,
   (claim_C4_approve_reject_exclusive
      { sampleUnit with is_approved := true, is_rejected := true }
      sampleDb).2⟩

theorem pyOrZero_some (q : ℚ) : pyOrZero (some q) = q := by
  simp only [pyOrZero]
  split
  next h0 => exact h0.symm
  next => rfl

/-- Claim C5: `average_rating` is 0 when the unit has no linked ratings, and
otherwise equals the arithmetic mean of all its linked rating values. -/
theorem claim_C5_average_rating_is_mean (u : CommunityHealthUnit)
    (db : ChuDatabase) :
    (ratingsOf u db = [] → u.average_rating db = 0) ∧
    (ratingsOf u db ≠ [] →
      u.average_rating db =
        ((ratingsOf u db).map (fun n => (n : ℚ))).sum /
          (ratingsOf u db).length) := by
  constructor
  · intro h
    simp [CommunityHealthUnit.average_rating, aggregateAvg, pyOrZero, h]
  · intro h
    have hne : (ratingsOf u db).isEmpty = false := by
      cases hr : ratingsOf u db with
      | nil => exact absurd hr h
      | cons a l => rfl
    show pyOrZero (aggregateAvg (ratingsOf u db)) = _
    simp only [aggregateAvg, hne, Bool.false_eq_true, if_false,
      pyOrZero_some]

/-- A database carrying two ratings (3 and 5) for the unit with id 1 and no
rating for any other unit. -/
def ratedDb : ChuDatabase :=
  { units := [], ratings := [⟨1, 1, 3, none⟩, ⟨2, 1, 5, none⟩], seq := 0 }

/-- A unit (id 2) with no linked rating in `ratedDb`. -/
def unratedUnit : CommunityHealthUnit := { sampleUnit with id := 2 }

/-- Witness for claim C5 at concrete inputs: a unit with ratings [3, 5] has
average rating 4, and a unit with no ratings has average rating 0. -/
theorem claim_C5_witness :
    sampleUnit.average_rating ratedDb = 4 ∧
    unratedUnit.average_rating ratedDb = 0 := by
  constructor
  · have h := (claim_C5_average_rating_is_mean sampleUnit ratedDb).2
      (by decide)
    rw [h]
    norm_num [ratingsOf, ratedDb, sampleUnit]
  · exact (claim_C5_average_rating_is_mean unratedUnit ratedDb).1 (by decide)

/-- Claim C6: a rating fails field validation exactly when it lies outside
the inclusive interval [0, 5]. -/
theorem claim_C6_rating_bounds (r : CHURating) :
    (∃ e, r.run_validators = .error e) ↔ r.rating < 0 ∨ 5 < r.rating := by
  unfold CHURating.run_validators
  by_cases h : 5 < r.rating
  · simp [h]
  · simp [h, Nat.not_lt_zero]

/-- Witness for claim C6 at concrete inputs: rating 6 is rejected, ratings 0
and 5 are accepted. -/
theorem claim_C6_witness :
    (∃ e, CHURating.run_validators ⟨1, 1, 6, none⟩ = .error e) ∧
    CHURating.run_validators ⟨2, 1, 0, none⟩ = .ok () ∧
    CHURating.run_validators ⟨3, 1, 5, none⟩ = .ok () :=
  ⟨(claim_C6_rating_bounds ⟨1, 1, 6, none⟩).mpr (by decide), rfl, rfl⟩

/-- Claim C7: every `ChuUpdateBuffer` method is a no-op stub — each call
returns Python's `None`, raises nothing, and leaves both the receiver and the
buffer table unchanged; in particular `save` persists nothing. -/
theorem claim_C7_update_buffer_methods_are_stubs (b : ChuUpdateBuffer)
    (table : List ChuUpdateBuffer) :
    b.validate_atleast_one_attribute_updated table = .ok (none, b, table) ∧
    b.update_basic_details table = .ok (none, b, table) ∧
    b.update_workers table = .ok (none, b, table) ∧
    b.update_contacts table = .ok (none, b, table) ∧
    b.updates table = .ok (none, b, table) ∧
    b.save table = .ok (none, b, table) ∧
    b.clean table = .ok (none, b, table) :=
  ⟨rfl, rfl, rfl, rfl, rfl, rfl, rfl⟩

/-- Claim C10: starting from the empty worker table, inserting under the
declared uniqueness constraints preserves the invariant that no two rows
share a non-null id_number; consequently two workers of two different health
units can never share one. -/
theorem claim_C10_id_number_globally_unique :
    NoSharedIdNumber ([] : List CommunityHealthWorker) ∧
    ∀ (table : List CommunityHealthWorker) (w : CommunityHealthWorker)
      (table' : List CommunityHealthWorker),
      NoSharedIdNumber table → insertWorker table w = .ok table' →
      NoSharedIdNumber table' ∧
      ∀ w₁ ∈ table', ∀ w₂ ∈ table', w₁.health_unit ≠ w₂.health_unit →
        ∀ n, w₁.id_number = some n → w₂.id_number ≠ some n := by
  refine ⟨List.Pairwise.nil, ?_⟩
  intro table w table' hinv h
  have hsym : Symmetric fun a b : CommunityHealthWorker =>
      ∀ n, a.id_number = some n → b.id_number ≠ some n := by
    intro a b hab n hbn han
    exact (hab n han) hbn
  unfold insertWorker at h
  split at h
  next => simp at h
  next hno =>
    split at h
    next => simp at h
    next =>
      simp only [Except.ok.injEq] at h
      subst h
      have hno' : ∀ v ∈ table, ¬(idNumberConflict v w = true) := by
        simpa [List.any_eq_true] using hno
      have hcross : ∀ a ∈ table, ∀ n, a.id_number = some n →
          w.id_number ≠ some n := by
        intro a ha n han hwn
        exact hno' a ha (by simp [idNumberConflict, han, hwn])
      have hinv' : NoSharedIdNumber (table ++ [w]) := by
        rw [NoSharedIdNumber, List.pairwise_append]
        refine ⟨hinv, List.pairwise_singleton _ _, ?_⟩
        intro a ha b hb
        rw [List.mem_singleton] at hb
        subst hb
        exact hcross a ha
      refine ⟨hinv', ?_⟩
      intro w₁ h₁ w₂ h₂ hunit n
      have hne : w₁ ≠ w₂ := fun he => hunit (by rw [he])
      exact hinv'.forall hsym h₁ h₂ hne n

/-- A worker with id_number 1234 on health unit 1. -/
def sampleWorker : CommunityHealthWorker :=
  { id := 1, first_name := "Akinyi", last_name := none,
    id_number := some 1234, is_incharge := false, health_unit := 1 }

/-- Witness for claim C10 at a concrete input: inserting one worker into the
empty table succeeds and the resulting table satisfies the no-shared-id_number
property. -/
theorem claim_C10_witness :
    NoSharedIdNumber [sampleWorker] ∧
    ∀ w₁ ∈ [sampleWorker], ∀ w₂ ∈ [sampleWorker],
      w₁.health_unit ≠ w₂.health_unit →
      ∀ n, w₁.id_number = some n → w₂.id_number ≠ some n :=
  claim_C10_id_number_globally_unique.2 [] sampleWorker [sampleWorker]
    List.Pairwise.nil rfl

end MflApi
